import Mathlib

/-
  Verification development for the atium tree-walking interpreter.

  The sources contain two coexisting generations of the pipeline:
  * generation 1: `token.rs`, `lexer.rs` (struct `Cursor`), `parser.rs`
    (recursive-descent `Parser` with `repeat_op`), modelled below under
    names `TokenType`, `Token`, `scanTokens`, `parse`, ...;
  * generation 2: `environment.rs`, `interpreter.rs`, `parser/expr.rs`
    (Pratt expression parser), `token/value.rs`, `token/type.rs`,
    modelled below under names `TokenKind`, `TokenK`, `Value`, `Env`,
    `evalExpr`, `interpret`, `prattExpression`, ...
  Machine integers (i64/i128) are modelled as `Int`; no claim exercises
  overflow.  `f64` float literals are never observed by any claim, so a
  float value carries the source text it was parsed from.  Rust `panic!`
  (and `unwrap` on `None`, index panics, `RefCell` borrow panics) is
  modelled by an explicit `panicked` outcome; the non-terminating loop in
  the lexer's string branch is modelled by an explicit `diverged` outcome.
-/

namespace Atium

/-- Token categories of generation 1 (`token.rs`, enum `TokenType`).
Keywords are prefixed with `kw` because some of their Rust names collide
with Lean keywords. -/
inductive TokenType where
  | leftParen | rightParen | leftBrace | rightBrace | comma | dot | minus | plus
  | semicolon | slash | star
  | bang | bangEqual | equal | equalEqual | greater | greaterEqual | less | lessEqual
  | identifier | str | number
  | kwAnd | kwClass | kwElse | kwFalse | kwFun | kwFor | kwIf | kwNil | kwOr
  | kwPrint | kwReturn | kwSuper | kwThis | kwTrue | kwVar | kwWhile
deriving DecidableEq, Repr

/-- Literal values of generation 1 (`token.rs`, enum `Value`): `String`,
`Integer(i64)` (the lexer actually parses `i128`; both are modelled as
`Int`), `Float(f64)` (carried as its source text, see file header),
`Boolean`, `Null`. -/
inductive LitValue where
  | string (s : String)
  | integer (n : Int)
  | float (repr : String)
  | boolean (b : Bool)
  | null
deriving DecidableEq, Repr

/-- Generation-1 token (`token.rs`, struct `Token`).  Equality is the
derived `PartialEq`, i.e. all four fields participate. -/
structure Token where
  tokenType : TokenType
  lexeme : String
  literal : Option LitValue
  line : Nat
deriving DecidableEq, Repr

/-- `error.rs`, enum `SyntaxError`.  `noExpression` is constructed by
`parser.rs` (`SyntaxError::NoExpression`) although the enum in the
snapshot's `error.rs` omits it. -/
inductive SyntaxError where
  | unexpectedCharacter (c : Char)
  | expectedCharacter (found : String) (expected : Char)
  | expectedIdent (found : String)
  | unexpectedEOF
  | noExpression
deriving DecidableEq, Repr

/-- An `eyre::Report` as produced by the generation-1 parser: either a
wrapped `SyntaxError` or a bare `bail!` message string. -/
inductive Report where
  | syn (e : SyntaxError)
  | msg (s : String)
deriving DecidableEq, Repr

/-! ## Generation-1 lexer (`lexer.rs`, `Cursor::scan_tokens`) -/

/-- Reserved-keyword table of `Cursor::new`. -/
def reserved (s : String) : Option TokenType :=
  match s with
  | "and" => some .kwAnd
  | "class" => some .kwClass
  | "else" => some .kwElse
  | "false" => some .kwFalse
  | "fun" => some .kwFun
  | "for" => some .kwFor
  | "if" => some .kwIf
  | "nil" => some .kwNil
  | "or" => some .kwOr
  | "print" => some .kwPrint
  | "return" => some .kwReturn
  | "super" => some .kwSuper
  | "this" => some .kwThis
  | "true" => some .kwTrue
  | "var" => some .kwVar
  | "while" => some .kwWhile
  | _ => none

/-- The inner loop of the string branch of `scan_tokens`.  It breaks only
on a closing quote; on end-of-input (`None`) it pushes an error and loops
again on the still-empty iterator, i.e. it never terminates.  `none` here
marks that divergence; `some (content, rest)` is the collected content and
the input after the closing quote. -/
def stringBody : List Char → Option (List Char × List Char)
  | [] => none
  | '"' :: rest => some ([], rest)
  | c :: rest =>
    match stringBody rest with
    | none => none
    | some (s, r) => some (c :: s, r)

/-- The number branch's inner loop: consume digits and dots (any number of
dots; the source pushes every `.` it peeks).  Returns the consumed
characters, the count of dots, and the rest. -/
def numScan : List Char → (List Char × Nat × List Char)
  | [] => ([], 0, [])
  | c :: rest =>
    if '0' ≤ c ∧ c ≤ '9' then
      match numScan rest with
      | (ds, n, r) => (c :: ds, n, r)
    else if c = '.' then
      match numScan rest with
      | (ds, n, r) => (c :: ds, n + 1, r)
    else ([], 0, c :: rest)

/-- The identifier branch's inner loop: `while let Some('a'..='z' | 'A'..='Z'
| '1'..='9') = peek` — note the source range really is `'1'..='9'`, so an
identifier continuation never contains `'0'`. -/
def identScan : List Char → (List Char × List Char)
  | [] => ([], [])
  | c :: rest =>
    if ('a' ≤ c ∧ c ≤ 'z') ∨ ('A' ≤ c ∧ c ≤ 'Z') ∨ ('1' ≤ c ∧ c ≤ '9') then
      match identScan rest with
      | (is, r) => (c :: is, r)
    else ([], c :: rest)

/-- The comment branch's inner loop: discard through the next newline or
end of input. -/
def commentSkip : List Char → List Char
  | [] => []
  | '\n' :: rest => rest
  | _ :: rest => commentSkip rest

/-- Value of a maximal digit run (`parse::<i128>` on a string of ASCII
digits). -/
def intOfDigits (cs : List Char) : Int :=
  Int.ofNat (cs.foldl (fun acc c => acc * 10 + (c.toNat - '0'.toNat)) 0)

/-- `Cursor::handle_two_char_op`.  Returns the token to push (if any) and
the rest of the input.  Faithful to the source: in the one-char (failure)
case the pushed lexeme is `predicate.to_string()` (i.e. always `"="`), and
at end of input (`None`) no token is pushed at all. -/
def handleTwoCharOp (curr pred : Char) (success failure : TokenType) (line : Nat) :
    List Char → Option Token × List Char
  | [] => (none, [])
  | x :: rest =>
    if x = pred then (some ⟨success, String.mk [curr, pred], none, line⟩, rest)
    else (some ⟨failure, String.mk [pred], none, line⟩, x :: rest)

/-- Possible outcomes of `Cursor::scan_tokens`:
`panicked` models a Rust panic (`peek().unwrap()` on a trailing `'/'`, or
`parse::<f64>().unwrap()` on a numeric run with two or more dots);
`diverged` models the never-breaking string loop (see `stringBody`);
`stuck` is an artifact of the fuel encoding and is unreachable for the
fuel supplied by `scanTokens`. -/
inductive LexOut where
  | panicked
  | diverged
  | stuck
  | toks (ts : List Token)
  | errs (es : List SyntaxError)
deriving DecidableEq, Repr

/-- The main loop of `Cursor::scan_tokens`, one step per iteration of the
source's `loop`, with the character just consumed scrutinised exactly in
the source's match order.  `fuel` only bounds the iteration count; every
iteration consumes at least one character, so the fuel supplied by
`scanTokens` never runs out. -/
def scanLoop : Nat → List Char → Nat → List Token → List SyntaxError → LexOut
  | 0, _, _, _, _ => .stuck
  | _ + 1, [], _, toks, errs =>
    if errs.isEmpty then .toks toks else .errs errs
  | n + 1, c :: rest, line, toks, errs =>
    match c with
    | '(' => scanLoop n rest line (toks ++ [⟨.leftParen, String.mk [c], none, line⟩]) errs
    | ')' => scanLoop n rest line (toks ++ [⟨.rightParen, String.mk [c], none, line⟩]) errs
    | '{' => scanLoop n rest line (toks ++ [⟨.leftBrace, String.mk [c], none, line⟩]) errs
    | '}' => scanLoop n rest line (toks ++ [⟨.rightBrace, String.mk [c], none, line⟩]) errs
    | ',' => scanLoop n rest line (toks ++ [⟨.comma, String.mk [c], none, line⟩]) errs
    | '.' => scanLoop n rest line (toks ++ [⟨.dot, String.mk [c], none, line⟩]) errs
    | '-' => scanLoop n rest line (toks ++ [⟨.minus, String.mk [c], none, line⟩]) errs
    | '+' => scanLoop n rest line (toks ++ [⟨.plus, String.mk [c], none, line⟩]) errs
    | ';' => scanLoop n rest line (toks ++ [⟨.semicolon, String.mk [c], none, line⟩]) errs
    | '*' => scanLoop n rest line (toks ++ [⟨.star, String.mk [c], none, line⟩]) errs
    | '!' =>
      match handleTwoCharOp '!' '=' .bangEqual .bang line rest with
      | (t, r) => scanLoop n r line (toks ++ t.toList) errs
    | '=' =>
      match handleTwoCharOp '=' '=' .equalEqual .equalEqual line rest with
      | (t, r) => scanLoop n r line (toks ++ t.toList) errs
    | '<' =>
      match handleTwoCharOp '<' '=' .lessEqual .less line rest with
      | (t, r) => scanLoop n r line (toks ++ t.toList) errs
    | '>' =>
      match handleTwoCharOp '>' '=' .greaterEqual .greater line rest with
      | (t, r) => scanLoop n r line (toks ++ t.toList) errs
    | '/' =>
      match rest with
      | [] => .panicked
      | '/' :: r2 => scanLoop n (commentSkip r2) (line + 1) toks errs
      | _ => scanLoop n rest line (toks ++ [⟨.slash, String.mk [c], none, line⟩]) errs
    | '"' =>
      match stringBody rest with
      | none => .diverged
      | some (content, r2) =>
        scanLoop n r2 line
          (toks ++ [⟨.str, String.mk ('"' :: content ++ ['"']),
                     some (.string (String.mk content)), line⟩]) errs
    | '\n' => scanLoop n rest (line + 1) toks errs
    | '\r' => scanLoop n rest line toks errs
    | '\t' => scanLoop n rest line toks errs
    | ' ' => scanLoop n rest line toks errs
    | _ =>
      if '0' ≤ c ∧ c ≤ '9' then
        match numScan rest with
        | (ds, dots, r2) =>
          let lexeme := String.mk (c :: ds)
          if dots = 0 then
            scanLoop n r2 line
              (toks ++ [⟨.number, lexeme, some (.integer (intOfDigits (c :: ds))), line⟩]) errs
          else if dots = 1 then
            scanLoop n r2 line (toks ++ [⟨.number, lexeme, some (.float lexeme), line⟩]) errs
          else .panicked
      else if ('a' ≤ c ∧ c ≤ 'z') ∨ ('A' ≤ c ∧ c ≤ 'Z') then
        match identScan rest with
        | (is, r2) =>
          let ident := String.mk (c :: is)
          match reserved ident with
          | some tt =>
            if tt = .kwTrue then
              scanLoop n r2 line (toks ++ [⟨tt, ident, some (.boolean true), line⟩]) errs
            else if tt = .kwFalse then
              scanLoop n r2 line (toks ++ [⟨tt, ident, some (.boolean false), line⟩]) errs
            else scanLoop n r2 line (toks ++ [⟨tt, ident, none, line⟩]) errs
          | none => scanLoop n r2 line (toks ++ [⟨.identifier, ident, none, line⟩]) errs
      else scanLoop n rest line toks (errs ++ [.unexpectedCharacter c])

/-- `Cursor::scan_tokens` on a source string. -/
def scanTokens (src : String) : LexOut :=
  scanLoop (src.length + 1) src.toList 0 [] []

/-! ## Generation-1 AST and parser (`ast.rs`, `parser.rs`) -/

/-- Expression AST built by `parser.rs` (`ast.rs`, enum `Expr`): `Binary`,
`Grouping`, `Literal`, `Unary`. -/
inductive Expr where
  | binary (l : Expr) (op : Token) (r : Expr)
  | grouping (e : Expr)
  | literal (t : Token)
  | unary (op : Token) (e : Expr)
deriving DecidableEq, Repr

/-- Statement AST as constructed by `parser.rs` (`Stmt::Expr`,
`Stmt::Print`; the `Stmt` enum itself is not in the snapshot's `ast.rs`,
its two variants are taken from their construction sites in `parser.rs`). -/
inductive Stmt where
  | expr (e : Expr)
  | print (e : Expr)
deriving DecidableEq, Repr

/-- Errors inside the generation-1 expression parser.  `panicked` models
the `panic!()` in `Parser::advance` and `Parser::peer` (the
`SyntaxError::UnexpectedEOF` they were to return is commented out in the
source); `fuelOut` is an artifact of the fuel encoding, unreachable for
the fuel supplied by `expression`. -/
inductive PErr where
  | panicked
  | fuelOut
  | rep (r : Report)
deriving DecidableEq, Repr

/-- The `while` loop of `Parser::repeat_op`, after the initial
`func(self)?`: while the peeked token's type is in `tts`, consume it,
parse a right operand with `func`, and fold into `Expr::Binary`.  `func`
is the next-tighter parsing level, passed in exactly as in the source. -/
def repeatLoop (func : List Token → Except PErr Expr × List Token) (tts : List TokenType) :
    Nat → Expr → List Token → Except PErr Expr × List Token
  | 0, _, ts => (.error .fuelOut, ts)
  | n + 1, left, ts =>
    match ts with
    | [] => (.ok left, [])
    | tok :: rest =>
      if tok.tokenType ∈ tts then
        match func rest with
        | (.error e, r) => (.error e, r)
        | (.ok right, r) => repeatLoop func tts n (Expr.binary left tok right) r
      else (.ok left, tok :: rest)

/-- `Parser::repeat_op`: parse a left operand with `func`, then run the
fold loop. -/
def repeatOp (func : List Token → Except PErr Expr × List Token) (tts : List TokenType)
    (fuel : Nat) (ts : List Token) : Except PErr Expr × List Token :=
  match func ts with
  | (.error e, r) => (.error e, r)
  | (.ok left, r) => repeatLoop func tts fuel left r

mutual

/-- `Parser::unary`: `peer` (panic on empty input), then either a prefix
`!`/`-`, the rejection of prefix `+`, or fall through to `primary`. -/
def unaryF : Nat → List Token → Except PErr Expr × List Token
  | 0, ts => (.error .fuelOut, ts)
  | n + 1, ts =>
    match ts with
    | [] => (.error .panicked, [])
    | tok :: rest =>
      match tok.tokenType with
      | .bang =>
        match unaryF n rest with
        | (.error e, r) => (.error e, r)
        | (.ok inner, r) => (.ok (Expr.unary tok inner), r)
      | .minus =>
        match unaryF n rest with
        | (.error e, r) => (.error e, r)
        | (.ok inner, r) => (.ok (Expr.unary tok inner), r)
      | .plus => (.error (.rep (.msg "'+' cannot be used as a unary operator")), tok :: rest)
      | _ => primaryF n (tok :: rest)

/-- `Parser::primary`: literals, parenthesised expressions (with the
`ExpectedCharacter` diagnostic on a missing `)` and a panic when the
input ends before the closing token), otherwise `SyntaxError::NoExpression`. -/
def primaryF : Nat → List Token → Except PErr Expr × List Token
  | 0, ts => (.error .fuelOut, ts)
  | n + 1, ts =>
    match ts with
    | [] => (.error .panicked, [])
    | tok :: rest =>
      match tok.tokenType with
      | .kwFalse => (.ok (.literal tok), rest)
      | .kwTrue => (.ok (.literal tok), rest)
      | .kwNil => (.ok (.literal tok), rest)
      | .str => (.ok (.literal tok), rest)
      | .number => (.ok (.literal tok), rest)
      | .leftParen =>
        match expressionF n rest with
        | (.error e, r) => (.error e, r)
        | (.ok inner, r) =>
          match r with
          | [] => (.error .panicked, [])
          | nxt :: r2 =>
            if nxt.tokenType = .rightParen then (.ok (.grouping inner), r2)
            else (.error (.rep (.syn (.expectedCharacter nxt.lexeme ')'))), r2)
      | _ => (.error (.rep (.syn .noExpression)), tok :: rest)

/-- `Parser::factor`: `repeat_op(unary, [Star, Slash])`. -/
def factorF : Nat → List Token → Except PErr Expr × List Token
  | 0, ts => (.error .fuelOut, ts)
  | n + 1, ts => repeatOp (fun ts2 => unaryF n ts2) [.star, .slash] n ts

/-- `Parser::term`: `repeat_op(factor, [Plus, Minus])`. -/
def termF : Nat → List Token → Except PErr Expr × List Token
  | 0, ts => (.error .fuelOut, ts)
  | n + 1, ts => repeatOp (fun ts2 => factorF n ts2) [.plus, .minus] n ts

/-- `Parser::comparison`: `repeat_op(term, [Greater, GreaterEqual, Less,
LessEqual])`. -/
def comparisonF : Nat → List Token → Except PErr Expr × List Token
  | 0, ts => (.error .fuelOut, ts)
  | n + 1, ts => repeatOp (fun ts2 => termF n ts2) [.greater, .greaterEqual, .less, .lessEqual] n ts

/-- `Parser::equality`: `repeat_op(comparison, [EqualEqual, BangEqual])`. -/
def equalityF : Nat → List Token → Except PErr Expr × List Token
  | 0, ts => (.error .fuelOut, ts)
  | n + 1, ts => repeatOp (fun ts2 => comparisonF n ts2) [.equalEqual, .bangEqual] n ts

/-- `Parser::expression`: delegates to `equality`. -/
def expressionF : Nat → List Token → Except PErr Expr × List Token
  | 0, ts => (.error .fuelOut, ts)
  | n + 1, ts => equalityF n ts

end

/-- Fuel that is ample for the whole `expression` call tree: the level
chain has fixed depth and every loop iteration consumes at least one
token. -/
def exprFuel (ts : List Token) : Nat :=
  16 * ts.length + 16

/-- `Parser::expression` as called from `Parser::parse`. -/
def expression (ts : List Token) : Except PErr Expr × List Token :=
  expressionF (exprFuel ts) ts

/-- `Parser::sync` (defined in `parser.rs` but never invoked by `parse`):
discard one token (`None` aborts the whole function with `None`); if the
discarded token was at a `Semicolon` boundary stop, otherwise discard
until just after a statement-starting keyword or the end of input.
Returns the remaining tokens. -/
def syncScan : List Token → Option (List Token)
  | [] => some []
  | t :: rest =>
    match t.tokenType with
    | .kwClass => some rest
    | .kwFun => some rest
    | .kwVar => some rest
    | .kwFor => some rest
    | .kwIf => some rest
    | .kwWhile => some rest
    | .kwPrint => some rest
    | .kwReturn => some rest
    | _ => syncScan rest

/-- `Parser::sync`, entry point (see `syncScan`). -/
def syncTokens (prev : TokenType) : List Token → Option (List Token)
  | [] => none
  | _ :: rest => if prev = .semicolon then some rest else syncScan rest

/-- Accumulator state of `Parser::parse`'s statement loop: the `Vec` of
per-statement results, or a panic, or fuel exhaustion (unreachable for
the fuel supplied by `parse`). -/
inductive PAcc where
  | panicked
  | stuck
  | acc (l : List (Except Report Stmt))
deriving Repr

/-- The `while let Some(peek_next) = self.iter.peek()` loop of
`Parser::parse`.  The `print` branch consumes the `print` token, parses an
expression (pushing the error and breaking out of the loop on failure),
then demands a `;` — pushing an `ExpectedCharacter` diagnostic and
breaking at end of input, or pushing the diagnostic and still pushing the
statement when the next token is not a semicolon.  Every other statement
begins with `self.iter.next()` discarding its first token before
`expression` runs. -/
def parseLoop : Nat → List Token → PAcc
  | 0, _ => .stuck
  | _ + 1, [] => .acc []
  | n + 1, t :: rest =>
    if t.tokenType = .kwPrint then
      match expression rest with
      | (.error .panicked, _) => .panicked
      | (.error .fuelOut, _) => .stuck
      | (.error (.rep r), _) => .acc [Except.error r]
      | (.ok e, r2) =>
        match r2 with
        | [] => .acc [Except.error (Report.syn (.expectedCharacter "EOF" ';'))]
        | semi :: r3 =>
          match parseLoop n r3 with
          | .panicked => .panicked
          | .stuck => .stuck
          | .acc tail =>
            if semi.tokenType ≠ .semicolon then
              .acc (Except.error (Report.syn (.expectedCharacter semi.lexeme ';'))
                    :: Except.ok (Stmt.print e) :: tail)
            else .acc (Except.ok (Stmt.print e) :: tail)
    else
      match expression rest with
      | (.error .panicked, _) => .panicked
      | (.error .fuelOut, _) => .stuck
      | (.error (.rep r), r2) =>
        match parseLoop n r2 with
        | .panicked => .panicked
        | .stuck => .stuck
        | .acc tail => .acc (Except.error r :: tail)
      | (.ok e, r2) =>
        match parseLoop n r2 with
        | .panicked => .panicked
        | .stuck => .stuck
        | .acc tail => .acc (Except.ok (Stmt.expr e) :: tail)

/-- Result of `Parser::parse`: `Err` with every collected diagnostic when
any statement failed, otherwise `Ok` with the statements. -/
inductive POut where
  | panicked
  | stuck
  | errs (es : List Report)
  | ok (ss : List Stmt)
deriving DecidableEq, Repr

/-- `Parser::parse`: run the statement loop, then either return all
errors (`filter_map(Result::err)`) or all statements. -/
def parse (ts : List Token) : POut :=
  match parseLoop (ts.length + 1) ts with
  | .panicked => .panicked
  | .stuck => .stuck
  | .acc stmts =>
    if stmts.any (fun s => match s with | .error _ => true | .ok _ => false) then
      .errs (stmts.filterMap (fun s => match s with | .error r => some r | .ok _ => none))
    else
      .ok (stmts.filterMap (fun s => match s with | .error _ => none | .ok st => some st))

/-! ## Generation-2 data model (`token/value.rs`, `token/type.rs`) and the
missing final token module -/

/-- Runtime values (`token/value.rs`, enum `Value`): `String`,
`Integer(i128)` (modelled as `Int`), `Float(f64)` (carried as source
text, see file header), `Boolean`, `Null`. -/
inductive Value where
  | string (s : String)
  | integer (n : Int)
  | float (repr : String)
  | boolean (b : Bool)
  | null
deriving DecidableEq, Repr

/-- `token/type.rs`, enum `Type` (named `Ty` here because `Type` is a Lean
keyword): the type projection of a `Value` used in error messages. -/
inductive Ty where
  | string
  | integer
  | float
  | boolean
  | null
deriving DecidableEq, Repr

/-- `impl From<Value> for Type` in `token/type.rs`. -/
def Value.toTy : Value → Ty
  | .string _ => .string
  | .integer _ => .integer
  | .float _ => .float
  | .boolean _ => .boolean
  | .null => .null

/-- `impl Display for Value` in `token/value.rs`: the text a `print`
statement writes. -/
def Value.display : Value → String
  | .string a => a
  | .integer a => toString a
  | .float r => r
  | .boolean b => toString b
  | .null => "Null"

/-- Token kinds of the final generation (`TokenKind`), as used by
`parser/expr.rs` and `interpreter.rs`.  Modelled from the spec: the enum
itself is not in the snapshot; its variants are taken from their use
sites and from the spec's token vocabulary. -/
inductive TokenKind where
  | number | str | kwTrue | kwFalse | identifier
  | leftParen | rightParen | minus | bang | plus | star | slash
  | equal | equalEqual | semicolon | kwPrint | kwVar
deriving DecidableEq, Repr

/-- Final-generation token.  Modelled from the spec: the struct itself is
not in the snapshot.  Its `span` is collapsed to the `lex` component
(`Token::lex()` is the only span access the interpreter performs; line,
column and file are never read by the covered core). -/
structure TokenK where
  kind : TokenKind
  lex : String
  literal : Option Value
deriving DecidableEq, Repr

/-- Key equality for environment maps.  Modelled from the spec: "Equality
and hashing are defined over `(kind, lexeme)` only".  The `Eq`/`Hash`
implementation of the final token module is not in the snapshot. -/
def tokenKeyEq (a b : TokenK) : Bool :=
  a.kind == b.kind && a.lex == b.lex

/-- Runtime errors (`error.rs`, enum `RuntimeError`).  `invalidIdent`,
`uninitialisedVar` and `invalidAssignmentTarget` are constructed by
`interpreter.rs`/`environment.rs` although the enum in the snapshot's
`error.rs` omits them; their payloads are taken from their construction
sites.  The `dump!` macro wraps each of these in a `Diagnostic` with a
placeholder span, which carries no further information and is omitted. -/
inductive RuntimeError where
  | invalidOperator (op : String) (expected : List Char)
  | invalidType (found : Ty) (expected : List Ty)
  | invalidTypes (op : String) (found : List Ty) (expected : List (Ty × Ty))
  | invalidIdent (name : String)
  | uninitialisedVar (name : String)
  | invalidAssignmentTarget
deriving DecidableEq, Repr

/-! ## Environment (`environment.rs`)

`Env` stores `HashMap<Token, Option<Rc<RefCell<Value>>>>`.  No code path
ever mutates a `Value` through a cell: `define` and `assign` always insert
a freshly built `Rc`, and `get` clones the contents out.  Sharing of the
`Rc` cells between an `Env` and its `clone()` is therefore unobservable,
and the map is modelled as an association list of plain optional values;
`Env::clone` becomes the identity of a pure value. -/

/-- A scope chain: the current scope's table and the optional parent. -/
inductive Env where
  | mk (table : List (TokenK × Option Value)) (parent : Option Env)
deriving Repr

/-- The current scope's table. -/
def Env.table : Env → List (TokenK × Option Value)
  | .mk m _ => m

/-- The parent link. -/
def Env.parent : Env → Option Env
  | .mk _ p => p

/-- `Env::new`. -/
def Env.new : Env := .mk [] none

/-- `HashMap::get` on the scope table, with the key equality of
`tokenKeyEq`. -/
def lookupKey : List (TokenK × Option Value) → TokenK → Option (Option Value)
  | [], _ => none
  | (k, v) :: rest, ident => if tokenKeyEq ident k then some v else lookupKey rest ident

/-- `HashMap::insert` on the scope table: replace the value when an equal
key is present (keeping the stored key, as `HashMap::insert` does),
otherwise add the binding. -/
def insertKey : List (TokenK × Option Value) → TokenK → Option Value →
    List (TokenK × Option Value)
  | [], ident, v => [(ident, v)]
  | (k, w) :: rest, ident, v =>
    if tokenKeyEq ident k then (k, v) :: rest else (k, w) :: insertKey rest ident v

/-- `HashMap::contains_key` on the scope table. -/
def containsKey (m : List (TokenK × Option Value)) (ident : TokenK) : Bool :=
  (lookupKey m ident).isSome

/-- `Env::define`: insert/overwrite in the current scope only. -/
def Env.define (e : Env) (ident : TokenK) (v : Option Value) : Env :=
  .mk (insertKey e.table ident v) e.parent

/-- `Env::get`: the outer `Option` is whether the identifier is bound
anywhere in the chain, the inner one whether it has a value; a local miss
recurses to the parent. -/
def Env.get : Env → TokenK → Option (Option Value)
  | .mk table par, ident =>
    match lookupKey table ident with
    | none =>
      match par with
      | none => none
      | some p => p.get ident
    | some v => some v

/-- `Env::assign`: overwrite in the nearest scope already containing the
name, recursing to the parent otherwise；errors with
`InvalidAssignmentTarget` when no scope in the chain contains it.
Returns the assigned value (the source returns `Ok(value)`): the updated
chain is the threaded pure state. -/
def Env.assign : Env → TokenK → Value → Except RuntimeError (Value × Env)
  | .mk table par, ident, v =>
    if containsKey table ident then
      .ok (v, .mk (insertKey table ident (some v)) par)
    else
      match par with
      | none => .error .invalidAssignmentTarget
      | some p =>
        match p.assign ident v with
        | .error e => .error e
        | .ok (w, p2) => .ok (w, .mk table (some p2))

/-- `Env::set_parent`. -/
def Env.setParent (e : Env) (p : Env) : Env :=
  .mk e.table (some p)

/-! ## Final-generation AST and interpreter (`interpreter.rs`) -/

/-- Expression AST of the final generation, variants from their match
arms in `interpreter.rs` (`Variable` is named `varRef` because `variable`
is a Lean keyword). -/
inductive ExprI where
  | literal (t : TokenK)
  | grouping (e : ExprI)
  | varRef (name : TokenK)
  | assignment (name : TokenK) (value : ExprI)
  | unary (op : TokenK) (e : ExprI)
  | binary (l : ExprI) (op : TokenK) (r : ExprI)
deriving DecidableEq, Repr

/-- Statement AST of the final generation, variants from their match arms
in `interpreter.rs` (`Var` is named `varDecl`). -/
inductive StmtI where
  | expr (e : ExprI)
  | print (e : ExprI)
  | varDecl (name : TokenK) (value : Option ExprI)
  | block (stmts : List StmtI)
deriving Repr

/-- Interpreter-side failure: a Rust panic (`unwrap` of a literal-less
literal token, division by zero, `RefCell` double borrow) or a
`RuntimeError` diagnostic. -/
inductive IErr where
  | panicked
  | er (e : RuntimeError)
deriving DecidableEq, Repr

/-- `Interpreter::get_var`: dispatch on the double `Option` of
`Env::get`. -/
def getVar (env : Env) (ident : TokenK) : Except IErr Value :=
  match env.get ident with
  | some (some v) => .ok v
  | some none => .error (.er (.uninitialisedVar ident.lex))
  | none => .error (.er (.invalidIdent ident.lex))

/-- `Interpreter::expression`: evaluate an expression against the current
environment, returning the result and the environment after evaluation
(the source mutates a shared `RefCell<Env>` in place; the pure embedding
threads it, also past errors).  Left operands are fully evaluated before
right ones.  Division by zero and `i128::MIN / -1` panic in Rust (`Int.tdiv` is the trunc-toward-zero division of Rust); the
zero case is modelled, the overflow case cannot arise for `Int`. -/
def evalExpr : ExprI → Env → Except IErr Value × Env
  | .literal t, env =>
    match t.literal with
    | some v => (.ok v, env)
    | none => (.error .panicked, env)
  | .grouping e, env => evalExpr e env
  | .varRef ident, env => (getVar env ident, env)
  | .assignment ident val, env =>
    match evalExpr val env with
    | (.error e, env1) => (.error e, env1)
    | (.ok v, env1) =>
      match env1.assign ident v with
      | .error e => (.error (.er e), env1)
      | .ok (w, env2) => (.ok w, env2)
  | .unary op e, env =>
    match evalExpr e env with
    | (.error er, env1) => (.error er, env1)
    | (.ok v, env1) =>
      match op.kind with
      | .minus =>
        match v with
        | .integer a => (.ok (.integer (-a)), env1)
        | _ => (.error (.er (.invalidType v.toTy [.integer])), env1)
      | .bang =>
        match v with
        | .boolean a => (.ok (.boolean (!a)), env1)
        | _ => (.error (.er (.invalidType v.toTy [.boolean])), env1)
      | _ => (.error (.er (.invalidOperator op.lex ['-', '!'])), env1)
  | .binary l op r, env =>
    match evalExpr l env with
    | (.error e, env1) => (.error e, env1)
    | (.ok lv, env1) =>
      match evalExpr r env1 with
      | (.error e, env2) => (.error e, env2)
      | (.ok rv, env2) =>
        match op.kind with
        | .slash =>
          match lv, rv with
          | .integer a, .integer b =>
            if b = 0 then (.error .panicked, env2) else (.ok (.integer (Int.tdiv a b)), env2)
          | _, _ =>
            (.error (.er (.invalidTypes op.lex [lv.toTy, rv.toTy]
              [(.integer, .integer)])), env2)
        | .minus =>
          match lv, rv with
          | .integer a, .integer b => (.ok (.integer (a - b)), env2)
          | _, _ =>
            (.error (.er (.invalidTypes op.lex [lv.toTy, rv.toTy]
              [(.integer, .integer)])), env2)
        | .star =>
          match lv, rv with
          | .integer a, .integer b => (.ok (.integer (a * b)), env2)
          | _, _ =>
            (.error (.er (.invalidTypes op.lex [lv.toTy, rv.toTy]
              [(.integer, .integer)])), env2)
        | .plus =>
          match lv, rv with
          | .integer a, .integer b => (.ok (.integer (a + b)), env2)
          | .string a, .string b => (.ok (.string (a ++ b)), env2)
          | _, _ =>
            (.error (.er (.invalidTypes op.lex [lv.toTy, rv.toTy]
              [(.integer, .integer), (.string, .string)])), env2)
        | _ => (.error (.er (.invalidOperator op.lex ['+', '/', '-', '*'])), env2)

/-- Interpreter state: the current environment (`RefCell<Env>`) and the
lines written to standard output so far. -/
structure InterpSt where
  env : Env
  out : List String
deriving Repr

mutual

/-- `Interpreter::execute`.  The result is the state after the statement
together with the runtime errors it produced (`interpret` and
`execute_block` flatten away the `Vec<Option<Report>>` bookkeeping, so
only the actual reports are observable); `Except.error ()` is a Rust
panic unwinding the whole run. -/
def execStmt : StmtI → InterpSt → Except Unit (InterpSt × List RuntimeError)
  | .expr e, st =>
    match evalExpr e st.env with
    | (.error .panicked, _) => .error ()
    | (.error (.er x), env2) => .ok (⟨env2, st.out⟩, [x])
    | (.ok _, env2) => .ok (⟨env2, st.out⟩, [])
  | .print e, st =>
    match evalExpr e st.env with
    | (.error .panicked, _) => .error ()
    | (.error (.er x), env2) => .ok (⟨env2, st.out⟩, [x])
    | (.ok v, env2) => .ok (⟨env2, st.out ++ [v.display]⟩, [])
  | .varDecl name value, st =>
    match value with
    | some e =>
      match evalExpr e st.env with
      | (.error .panicked, _) => .error ()
      | (.error (.er x), env2) => .ok (⟨env2, st.out⟩, [x])
      | (.ok v, env2) => .ok (⟨env2.define name (some v), st.out⟩, [])
    | none => .ok (⟨st.env.define name none, st.out⟩, [])
  | .block stmts, st =>
    match execList stmts ⟨(Env.new).setParent st.env, st.out⟩ with
    | .error () => .error ()
    | .ok (st2, errs) => .ok (⟨st.env, st2.out⟩, errs)

/-- Sequential execution of a statement list, collecting every statement's
errors and continuing past them (as both `Interpreter::interpret` and
`Interpreter::execute_block` do).  For a block, `execute_block` replaces
the current environment by `Env::new` linked (via `set_parent` on a
`clone`) to the previous one, and on exit restores the environment that
was current before the block — `st.env` in the `block` arm above — not
the possibly-updated parent of the child scope. -/
def execList : List StmtI → InterpSt → Except Unit (InterpSt × List RuntimeError)
  | [], st => .ok (st, [])
  | s :: rest, st =>
    match execStmt s st with
    | .error () => .error ()
    | .ok (st2, es) =>
      match execList rest st2 with
      | .error () => .error ()
      | .ok (st3, es2) => .ok (st3, es ++ es2)

end

/-- `Interpreter::interpret`: execute every top-level statement against a
fresh root environment; `Ok(())` when no statement produced an error,
otherwise `Err` with all collected reports.  The second component is what
was printed. -/
def interpret (stmts : List StmtI) : Except Unit ((Except (List RuntimeError) Unit) × List String) :=
  match execList stmts ⟨Env.new, []⟩ with
  | .error () => .error ()
  | .ok (st, errs) =>
    .ok (if errs.isEmpty then .ok () else .error errs, st.out)

/-! ## Final-generation Pratt expression parser (`parser/expr.rs`) -/

/-- Failures of the Pratt parser.  `panicked` models the
`unimplemented!()` prefix arm; `fuelOut` is an artifact of the fuel
encoding, unreachable for the fuel supplied by `prattExpression`.
`advance`/`peer` of the final parser are not in the snapshot; modelled
from the spec: they error with `UnexpectedEOF` on exhausted input. -/
inductive PrattErr where
  | panicked
  | fuelOut
  | syn (e : SyntaxError)
  | runtime (e : RuntimeError)
deriving DecidableEq, Repr

/-- `infix_bp`: left/right binding powers of the infix operators. -/
def infixBp : TokenKind → Option (Nat × Nat)
  | .equal => some (2, 1)
  | .equalEqual => some (4, 3)
  | .plus => some (5, 6)
  | .minus => some (5, 6)
  | .star => some (7, 8)
  | .slash => some (7, 8)
  | _ => none

mutual

/-- `Parser::expr(min_bp)`: the prefix dispatch (literal, variable,
parenthesised group, unary `-`/`!` with right binding power 7 from
`prefix_bp`, otherwise `unimplemented!()`), then the infix loop. -/
def exprPF : Nat → Nat → List TokenK → Except PrattErr ExprI × List TokenK
  | 0, _, ts => (.error .fuelOut, ts)
  | n + 1, minBp, ts =>
    match ts with
    | [] => (.error (.syn .unexpectedEOF), [])
    | t :: rest =>
      match t.kind with
      | .number => exprPLoopF n minBp (ExprI.literal t) rest
      | .str => exprPLoopF n minBp (ExprI.literal t) rest
      | .kwTrue => exprPLoopF n minBp (ExprI.literal t) rest
      | .kwFalse => exprPLoopF n minBp (ExprI.literal t) rest
      | .identifier => exprPLoopF n minBp (ExprI.varRef t) rest
      | .leftParen =>
        match exprPF n 0 rest with
        | (.error e, r) => (.error e, r)
        | (.ok inner, r) =>
          match r with
          | [] => (.error (.syn .unexpectedEOF), [])
          | nxt :: r2 =>
            if nxt.kind ≠ .rightParen then (.error (.syn (.expectedCharacter nxt.lex ')')), r2)
            else exprPLoopF n minBp (ExprI.grouping inner) r2
      | .minus =>
        match exprPF n 7 rest with
        | (.error e, r) => (.error e, r)
        | (.ok right, r) => exprPLoopF n minBp (ExprI.unary t right) r
      | .bang =>
        match exprPF n 7 rest with
        | (.error e, r) => (.error e, r)
        | (.ok right, r) => exprPLoopF n minBp (ExprI.unary t right) r
      | _ => (.error .panicked, t :: rest)

/-- The `while let Some(op) = self.iter.peek()` loop of `Parser::expr`:
stop when the peeked token is not an infix operator or its left binding
power is below `min_bp`; otherwise consume it, parse the right operand at
its right binding power, and fold into `Assignment` (for `=`, requiring
the left side to be a bare variable, else `InvalidAssignmentTarget`) or
`Binary`. -/
def exprPLoopF : Nat → Nat → ExprI → List TokenK → Except PrattErr ExprI × List TokenK
  | 0, _, _, ts => (.error .fuelOut, ts)
  | n + 1, minBp, left, ts =>
    match ts with
    | [] => (.ok left, [])
    | op :: rest =>
      match infixBp op.kind with
      | none => (.ok left, op :: rest)
      | some (lBp, rBp) =>
        if lBp < minBp then (.ok left, op :: rest)
        else
          match exprPF n rBp rest with
          | (.error e, r) => (.error e, r)
          | (.ok right, r) =>
            match op.kind with
            | .equal =>
              match left with
              | .varRef name => exprPLoopF n minBp (ExprI.assignment name right) r
              | _ => (.error (.runtime .invalidAssignmentTarget), r)
            | _ => exprPLoopF n minBp (ExprI.binary left op right) r

end

/-- `Parser::expression` of the final generation: `expr(0)`, with fuel
ample for the whole call tree. -/
def prattExpression (ts : List TokenK) : Except PrattErr ExprI × List TokenK :=
  exprPF (16 * ts.length + 16) 0 ts

/-! ## Concrete test vectors -/

/-- A generation-1 `print` keyword token. -/
def pTok : Token := ⟨.kwPrint, "print", none, 0⟩

/-- A generation-1 `*` token. -/
def starTok : Token := ⟨.star, "*", none, 0⟩

/-- A generation-1 `;` token. -/
def semiTok : Token := ⟨.semicolon, ";", none, 0⟩

/-- A generation-1 `.` token. -/
def dotTok : Token := ⟨.dot, ".", none, 0⟩

/-- A generation-1 `+` token. -/
def plusTok : Token := ⟨.plus, "+", none, 0⟩

/-- A generation-1 `-` token. -/
def minusTok : Token := ⟨.minus, "-", none, 0⟩

/-- A generation-1 integer literal token. -/
def numTok (s : String) (n : Int) : Token := ⟨.number, s, some (.integer n), 0⟩

/-- Token stream of `print *; print *;` — two independently malformed
print statements separated by `;`. -/
def c2Stream : List Token := [pTok, starTok, semiTok, pTok, starTok, semiTok]

/-- Token stream of `*; *; 7` — malformed bare-expression statements
followed by a statement whose expression consumes the rest of the
input. -/
def c2StreamExprs : List Token := [starTok, semiTok, starTok, semiTok, numTok "7" 7]

/-- Token stream of `print 1 +` — the input ends while a right operand is
still required. -/
def c6Stream : List Token := [pTok, numTok "1" 1, plusTok]

/-- Two generation-1 identifier tokens that agree on kind and lexeme and
differ only in their line. -/
def tokLine0 : Token := ⟨.identifier, "x", none, 0⟩

/-- See `tokLine0`. -/
def tokLine1 : Token := ⟨.identifier, "x", none, 1⟩

/-- A final-generation identifier token `x`. -/
def xK : TokenK := ⟨.identifier, "x", none⟩

/-- A final-generation integer literal token. -/
def numK (s : String) (n : Int) : TokenK := ⟨.number, s, some (.integer n)⟩

/-- A final-generation `true` token (carrying its Boolean literal). -/
def trueK : TokenK := ⟨.kwTrue, "true", some (.boolean true)⟩

/-- A final-generation `+` token. -/
def plusK : TokenK := ⟨.plus, "+", none⟩

/-- A final-generation `-` token. -/
def minusK : TokenK := ⟨.minus, "-", none⟩

/-- A final-generation `*` token. -/
def starK : TokenK := ⟨.star, "*", none⟩

/-- AST of `var x = 1; { x = 2; } print x;`. -/
def c1Prog : List StmtI :=
  [.varDecl xK (some (.literal (numK "1" 1))),
   .block [.expr (.assignment xK (.literal (numK "2" 2)))],
   .print (.varRef xK)]

/-- AST of `var x; print x;`. -/
def c9Prog : List StmtI :=
  [.varDecl xK none, .print (.varRef xK)]

/-- AST of `print 1 + true;`. -/
def c10Prog : List StmtI :=
  [.print (.binary (.literal (numK "1" 1)) plusK (.literal trueK))]

/-! ## Claim theorems -/

/-- Claim C1 (code evaluation at the failing input): for the program
`var x = 1; { x = 2; } print x;` interpretation succeeds but prints `1`,
not `2` — the assignment inside the block lands in the clone of the outer
environment that `execute_block` linked as the child's parent, and block
exit restores the pre-block environment, discarding the mutation. -/
theorem c1_outer_assignment_lost :
    interpret c1Prog = .ok (.ok (), ["1"]) ∧
    interpret c1Prog ≠ .ok (.ok (), ["2"]) := by
  refine ⟨rfl, fun h => ?_⟩
  rw [show interpret c1Prog = .ok (.ok (), ["1"]) from rfl] at h
  injection h with h2
  exact absurd (congrArg Prod.snd h2) (by decide)

/-- Claim C2 (code evaluation at the failing input): one `parse` call on
the token stream of `print *; print *;` — two independently malformed
statements separated by `;` — returns a single diagnostic, because an
expression error inside a `print` statement breaks out of the statement
loop; `sync` is never invoked by `parse`.  (Errors in bare-expression
statements are collected and the loop resumes, without synchronization,
as the second stream shows.) -/
theorem c2_single_diagnostic_on_print_errors :
    parse c2Stream = POut.errs [Report.syn SyntaxError.noExpression] ∧
    parse c2StreamExprs = POut.errs [Report.syn SyntaxError.noExpression,
      Report.syn SyntaxError.noExpression, Report.syn SyntaxError.noExpression] :=
  ⟨rfl, rfl⟩

/-- Claim C3 (code evaluation at the failing input): on the source `"ab`
— which ends inside a string literal — the lexer does not terminate: the
string branch's inner loop never breaks on `None`, so no error is ever
returned and no partial string token is ever registered. -/
theorem c3_unterminated_string_diverges :
    scanTokens "\"ab" = LexOut.diverged ∧ stringBody "ab".toList = none :=
  ⟨rfl, rfl⟩

/-- Claim C4 (code evaluation at the failing inputs): a lone `=` before a
non-`=` character yields an `EqualEqual` token (never `Equal`); a lone
`!` before a non-`=` character yields a `Bang` token whose lexeme is `"="`
(the predicate, not the consumed character); and a lone `<` as the last
character of the input yields no token at all. -/
theorem c4_lone_operator_tokens :
    scanTokens "=1" = LexOut.toks [⟨.equalEqual, "=", none, 0⟩, numTok "1" 1] ∧
    scanTokens "!a" = LexOut.toks [⟨.bang, "=", none, 0⟩, ⟨.identifier, "a", none, 0⟩] ∧
    scanTokens "<" = LexOut.toks [] :=
  ⟨rfl, rfl, rfl⟩

/-- Claim C5: in `Parser::parse`, a statement that does not begin with a
`print` token has its first token unconditionally consumed and discarded
— the parse result does not depend on that token at all — and the
expression of a bare expression statement is built from the second token
onward: the stream `1 2` parses to the single statement `Expr(Literal 2)`,
with the literal `1` absent from the AST. -/
theorem c5_first_token_discarded :
    (∀ (t1 t2 : Token) (rest : List Token),
      t1.tokenType ≠ TokenType.kwPrint → t2.tokenType ≠ TokenType.kwPrint →
      parse (t1 :: rest) = parse (t2 :: rest)) ∧
    parse [numTok "1" 1, numTok "2" 2] =
      POut.ok [Stmt.expr (Expr.literal (numTok "2" 2))] := by
  refine ⟨fun t1 t2 rest h1 h2 => ?_, rfl⟩
  simp only [parse, List.length_cons, parseLoop, h1, h2, if_false, ite_false]

/-- Witness for C5: instantiating the discard property at the concrete
non-`print` tokens `*` and `.` in front of the literal `2`. -/
theorem c5_first_token_discarded_witness :
    parse [starTok, numTok "2" 2] = parse [dotTok, numTok "2" 2] :=
  c5_first_token_discarded.1 starTok dotTok [numTok "2" 2] (by decide) (by decide)

/-- Claim C6 (code evaluation at the failing input): on the token stream
of `print 1 +`, which is exhausted while a right operand is still
required, `parse` panics (`Parser::advance`/`Parser::peer` run `panic!()`;
the `UnexpectedEOF` they were to return is commented out), rather than
returning an `UnexpectedEOF` diagnostic. -/
theorem c6_parse_panics_at_eof :
    parse c6Stream = POut.panicked := rfl

/-- Counterexample for claim C7: two generation-1 tokens with the same
kind and the same lexeme but different lines are not equal under the
derived `PartialEq` of `token.rs`. -/
theorem c7_kind_lexeme_equality_refuted :
    tokLine0.tokenType = tokLine1.tokenType ∧ tokLine0.lexeme = tokLine1.lexeme ∧
    tokLine0 ≠ tokLine1 := by decide

/-- Amended claim C7: equality of the `Token` of `token.rs` is the derived
full-record equality — two tokens are equal exactly when kind, lexeme,
carried literal and line all agree (so position metadata and literal
values do discriminate). -/
theorem c7_token_equality_all_fields :
    ∀ t1 t2 : Token, t1 = t2 ↔
      (t1.tokenType = t2.tokenType ∧ t1.lexeme = t2.lexeme ∧
       t1.literal = t2.literal ∧ t1.line = t2.line) := by
  intro t1 t2
  cases t1
  cases t2
  simp

/-- Claim C8: both expression parsers respect precedence and
associativity — `1+2*3` parses to `Binary(1, +, Binary(2, *, 3))` and
`2-3-4` parses left-associatively to `Binary(Binary(2, -, 3), -, 4)`,
under the generation-1 recursive-descent chain (`repeat_op` over
`term`/`factor`) and under the final Pratt parser (`infix_bp`). -/
theorem c8_precedence_and_associativity :
    expression [numTok "1" 1, plusTok, numTok "2" 2, starTok, numTok "3" 3] =
      (.ok (.binary (.literal (numTok "1" 1)) plusTok
        (.binary (.literal (numTok "2" 2)) starTok (.literal (numTok "3" 3)))), []) ∧
    expression [numTok "2" 2, minusTok, numTok "3" 3, minusTok, numTok "4" 4] =
      (.ok (.binary (.binary (.literal (numTok "2" 2)) minusTok (.literal (numTok "3" 3)))
        minusTok (.literal (numTok "4" 4))), []) ∧
    prattExpression [numK "1" 1, plusK, numK "2" 2, starK, numK "3" 3] =
      (.ok (.binary (.literal (numK "1" 1)) plusK
        (.binary (.literal (numK "2" 2)) starK (.literal (numK "3" 3)))), []) ∧
    prattExpression [numK "2" 2, minusK, numK "3" 3, minusK, numK "4" 4] =
      (.ok (.binary (.binary (.literal (numK "2" 2)) minusK (.literal (numK "3" 3)))
        minusK (.literal (numK "4" 4))), []) :=
  ⟨rfl, rfl, rfl, rfl⟩

/-- Claim C9: reading a variable has exactly the two failure modes decided
by the double `Option` of `Env::get` — unbound anywhere in the chain gives
`InvalidIdent`, declared-but-uninitialised gives `UninitialisedVar`, and a
bound initialised name gives its value — and the program `var x; print x;`
raises `UninitialisedVar` while printing nothing. -/
theorem c9_variable_read_failure_modes :
    (∀ (env : Env) (ident : TokenK),
      (env.get ident = none ∧
        getVar env ident = .error (.er (.invalidIdent ident.lex))) ∨
      (env.get ident = some none ∧
        getVar env ident = .error (.er (.uninitialisedVar ident.lex))) ∨
      (∃ v, env.get ident = some (some v) ∧ getVar env ident = .ok v)) ∧
    interpret c9Prog = .ok (.error [RuntimeError.uninitialisedVar "x"], []) := by
  refine ⟨fun env ident => ?_, rfl⟩
  rcases h : env.get ident with _ | _ | v
  · exact Or.inl ⟨rfl, by simp [getVar, h]⟩
  · exact Or.inr (Or.inl ⟨rfl, by simp [getVar, h]⟩)
  · exact Or.inr (Or.inr ⟨v, rfl, by simp [getVar, h]⟩)

/-- Claim C10: whenever both operands of a `+` expression evaluate
successfully, the result is the integer sum for two `Integer`s, the
concatenation (left then right) for two `String`s, and for every other
combination an `InvalidTypes` error carrying both operands' dynamic types
and exactly the accepted pairings `(Integer, Integer)` and
`(String, String)`. -/
theorem c10_plus_dispatch :
    ∀ (l r : ExprI) (op : TokenK) (env env1 env2 : Env) (lv rv : Value),
      op.kind = TokenKind.plus →
      evalExpr l env = (.ok lv, env1) →
      evalExpr r env1 = (.ok rv, env2) →
      evalExpr (.binary l op r) env =
        ((match lv, rv with
          | .integer a, .integer b => .ok (.integer (a + b))
          | .string a, .string b => .ok (.string (a ++ b))
          | _, _ => .error (.er (.invalidTypes op.lex [lv.toTy, rv.toTy]
              [(.integer, .integer), (.string, .string)]))), env2) := by
  intro l r op env env1 env2 lv rv hop h1 h2
  cases lv <;> cases rv <;> simp [evalExpr, h1, h2, hop, Value.toTy]

/-- Witness for C10: the operands of `1 + true` evaluate to `Integer 1`
and `Boolean true`, and the dispatch produces the `InvalidTypes` error
reporting `(Integer, Boolean)` against the two accepted pairings; the
whole program `print 1 + true;` returns exactly that diagnostic and
prints nothing. -/
theorem c10_plus_dispatch_witness :
    evalExpr (.binary (.literal (numK "1" 1)) plusK (.literal trueK)) Env.new =
      (.error (.er (.invalidTypes "+" [Ty.integer, Ty.boolean]
        [(Ty.integer, Ty.integer), (Ty.string, Ty.string)])), Env.new) ∧
    interpret c10Prog =
      .ok (.error [RuntimeError.invalidTypes "+" [Ty.integer, Ty.boolean]
        [(Ty.integer, Ty.integer), (Ty.string, Ty.string)]], []) :=
  ⟨c10_plus_dispatch (.literal (numK "1" 1)) (.literal trueK) plusK Env.new Env.new Env.new
    (.integer 1) (.boolean true) rfl rfl rfl, rfl⟩

end Atium
